import Mathlib

/-!
Shallow embedding of `lib/ansible/modules/web_infrastructure/jenkins_script.py`.

The module's `main` function (lines 128-172 of the source):
  1. validates that a password accompanies a supplied user,
  2. renders the script through Python's `string.Template(script).substitute(args)`
     when `args` is not None,
  3. POSTs the url-form-encoded script to `{url}/scriptText` via `fetch_url`,
  4. classifies the response: non-200 status is an HTTP error, a 200 body
     containing both "Exception:" and "at java.lang.Thread" is a script
     failure, anything else is success with the body as output.

Python's `string.Template` scans its input with the regular expression
  \$(?:(\$)|([_a-z][_a-z0-9]*)|\x7b([_a-z][_a-z0-9]*)\x7d|())   (IGNORECASE)
left to right; the last (empty) alternative raises ValueError ("invalid
placeholder"), a missing mapping key raises KeyError, and replacement values
are spliced in verbatim without rescanning.  `substituteGo` below is that
scan written as a structural state machine over the character list; mapping
values are Lean `String`s, so Python's `str()` coercion of values is the
identity here.
-/

/-- Character class of Python's Template `idpattern` first character:
`[_a-z]` under IGNORECASE, i.e. underscore or an ASCII letter. -/
def isIdentStart (c : Char) : Bool :=
  c = '_' || (('a' ≤ c && c ≤ 'z') || ('A' ≤ c && c ≤ 'Z'))

/-- Character class of the remaining `idpattern` characters: `[_a-z0-9]`
under IGNORECASE. -/
def isIdentChar (c : Char) : Bool :=
  isIdentStart c || ('0' ≤ c && c ≤ '9')

/-- The brace characters, kept as named constants. -/
def lbrace : Char := Char.ofNat 123

/-- Closing brace character. -/
def rbrace : Char := Char.ofNat 125

/-- Errors raised by `Template.substitute`: `keyError` models Python's
`KeyError` for a placeholder name absent from the mapping, and
`invalidPlaceholder` models the `ValueError` raised for a `$` that starts
neither `$$` nor a valid named/braced placeholder (the error's position
argument is elided). -/
inductive TemplateError where
  | keyError (name : String)
  | invalidPlaceholder
deriving DecidableEq

/-- Scanner state of the Template substitution scan. -/
inductive SubMode where
  | plain
  | afterDollar
  | bracedStart
  | inName (acc : List Char)
  | inBraced (acc : List Char)

/-- Prepend a character to the output of a successful scan, propagating
errors. -/
def consE (c : Char) : Except TemplateError (List Char) → Except TemplateError (List Char)
  | .ok out => .ok (c :: out)
  | .error e => .error e

/-- Finish a scanned placeholder name: look it up in the mapping (Python's
`mapping[named]`), splice the value before the continuation on success,
raise `KeyError` on a missing key.  A missing key errors even when the
continuation would error later, matching the left-to-right raise order. -/
def finishName (m : List (String × String)) (acc : List Char)
    (k : Except TemplateError (List Char)) : Except TemplateError (List Char) :=
  match List.lookup (String.mk acc) m with
  | some v =>
    match k with
    | .ok out => .ok (v.data ++ out)
    | .error e => .error e
  | none => .error (.keyError (String.mk acc))

/-- The Template substitution scan, one character at a time.  `plain` is
ordinary text, `afterDollar` has just consumed a `$`, `bracedStart` has
consumed `$` then an opening brace, `inName`/`inBraced` are scanning a bare
or braced identifier. -/
def substituteGo (m : List (String × String)) : SubMode → List Char → Except TemplateError (List Char)
  | .plain, [] => .ok []
  | .plain, c :: rest =>
    if c = '$' then substituteGo m .afterDollar rest
    else consE c (substituteGo m .plain rest)
  | .afterDollar, [] => .error .invalidPlaceholder
  | .afterDollar, c :: rest =>
    if c = '$' then consE '$' (substituteGo m .plain rest)
    else if c = lbrace then substituteGo m .bracedStart rest
    else if isIdentStart c then substituteGo m (.inName [c]) rest
    else .error .invalidPlaceholder
  | .bracedStart, [] => .error .invalidPlaceholder
  | .bracedStart, c :: rest =>
    if isIdentStart c then substituteGo m (.inBraced [c]) rest
    else .error .invalidPlaceholder
  | .inName acc, [] => finishName m acc (.ok [])
  | .inName acc, c :: rest =>
    if isIdentChar c then substituteGo m (.inName (acc ++ [c])) rest
    else
      finishName m acc
        (if c = '$' then substituteGo m .afterDollar rest
         else consE c (substituteGo m .plain rest))
  | .inBraced _, [] => .error .invalidPlaceholder
  | .inBraced acc, c :: rest =>
    if isIdentChar c then substituteGo m (.inBraced (acc ++ [c])) rest
    else if c = rbrace then finishName m acc (substituteGo m .plain rest)
    else .error .invalidPlaceholder

/-- Python's `Template(tmpl).substitute(m)`. -/
def substitute (tmpl : String) (m : List (String × String)) : Except TemplateError String :=
  match substituteGo m .plain tmpl.data with
  | .ok out => .ok (String.mk out)
  | .error e => .error e

/-- Python's `needle in hay` on strings, on character lists:
some suffix of `hay` starts with `needle`. -/
def startsWithL : List Char → List Char → Bool
  | [], _ => true
  | _ :: _, [] => false
  | a :: as, b :: bs => a = b && startsWithL as bs

/-- Substring containment on character lists (`needle in hay` in Python). -/
def containsSubL (hay needle : List Char) : Bool :=
  startsWithL needle hay ||
    match hay with
    | [] => false
    | _ :: t => containsSubL t needle

/-- Python's `needle in hay` for strings. -/
def containsSub (hay needle : String) : Bool :=
  containsSubL hay.data needle.data

/-!  URL form encoding.  `urlencode({'script': s})` in the source encodes
each key and value with `quote_plus`: the UTF-8 bytes of the string are
kept verbatim when alphanumeric or one of `_ . - ~`, a space byte becomes
`+`, and every other byte becomes `%XX` with uppercase hex digits; pairs
are joined with `=` and `&`.  Bytes are modelled as `Nat` below 256. -/

/-- UTF-8 encoding of one character, as a list of byte values. -/
def utf8Bytes (c : Char) : List Nat :=
  let n := c.toNat
  if n < 128 then [n]
  else if n < 2048 then [192 + n / 64, 128 + n % 64]
  else if n < 65536 then [224 + n / 4096, 128 + (n / 64) % 64, 128 + n % 64]
  else [240 + n / 262144, 128 + (n / 4096) % 64, 128 + (n / 64) % 64, 128 + n % 64]

/-- Uppercase hexadecimal digit for a value below 16. -/
def hexChar (n : Nat) : Char :=
  if n < 10 then Char.ofNat (48 + n) else Char.ofNat (55 + n)

/-- Bytes `quote_plus` leaves unencoded: ASCII alphanumerics and `_ . - ~`. -/
def isUrlSafeByte (b : Nat) : Bool :=
  (48 ≤ b && b ≤ 57) || (65 ≤ b && b ≤ 90) || (97 ≤ b && b ≤ 122) ||
    b = 45 || b = 46 || b = 95 || b = 126

/-- `quote_plus` on a single byte. -/
def quotePlusByte (b : Nat) : List Char :=
  if isUrlSafeByte b then [Char.ofNat b]
  else if b = 32 then ['+']
  else ['%', hexChar (b / 16), hexChar (b % 16)]

/-- Python's `urllib` `quote_plus` on a string. -/
def quotePlus (s : String) : String :=
  String.mk ((s.data.map utf8Bytes).flatten.map quotePlusByte).flatten

/-- Python's `urlencode` on an association list of string pairs. -/
def urlencode (ps : List (String × String)) : String :=
  String.intercalate "&" (ps.map fun kv => quotePlus kv.1 ++ "=" ++ quotePlus kv.2)

/-!  The module's data model.  `Params` is `module.params` after
`AnsibleModule` argument parsing; the `args` dict is modelled as an
association list with string keys and values. -/

/-- The parsed module parameters (source lines 130-139). -/
structure Params where
  script : String
  url : String
  validate_certs : Bool
  user : Option String
  password : Option String
  args : Option (List (String × String))

/-- The single HTTP request handed to `fetch_url` (source lines 157-160):
method POST, url with `/scriptText` appended, url-form-encoded data, and
the basic-auth parameters `main` stored into `module.params` beforehand. -/
structure Request where
  method : String
  url : String
  data : String
  url_username : Option String
  url_password : Option String
  force_basic_auth : Bool
  validate_certs : Bool
deriving DecidableEq

/-- What the transport returns: `info["status"]`, `info["msg"]` and the
decoded `resp.read()` body. -/
structure Response where
  status : Int
  msg : String
  body : String

/-- Observable outcome of one `main` run: `failJson` is
`module.fail_json(msg=...)`, `exitJson` is `module.exit_json(output=...)`,
and `templateFailure` is the uncaught `KeyError`/`ValueError` that
`Template.substitute` raises out of `main` (the module aborts without
calling `fetch_url`). -/
inductive Outcome where
  | failJson (msg : String)
  | templateFailure (e : TemplateError)
  | exitJson (output : String)
deriving DecidableEq

/-- Source lines 150-154: render the script through `Template.substitute`
when `args` is not None, otherwise pass it through untouched. -/
def renderScript (p : Params) : Except TemplateError String :=
  match p.args with
  | some a => substitute p.script a
  | none => .ok p.script

/-- Source lines 142-147 and 157-160: the request `fetch_url` submits.
`url_username`/`url_password`/`force_basic_auth` are set only inside the
`user is not None` branch, so they carry credentials exactly when both
`user` and `password` are present. -/
def buildRequest (p : Params) (script_contents : String) : Request :=
  { method := "POST"
    url := p.url ++ "/scriptText"
    data := urlencode [("script", script_contents)]
    url_username :=
      match p.user, p.password with
      | some u, some _ => some u
      | _, _ => none
    url_password :=
      match p.user, p.password with
      | some _, some pw => some pw
      | _, _ => none
    force_basic_auth :=
      match p.user, p.password with
      | some _, some _ => true
      | _, _ => false
    validate_certs := p.validate_certs }

/-- Source lines 162-172: classify the transport response.  A status other
than 200 fails with the status and transport message; a 200 body containing
both stack-trace substrings fails with the body; otherwise the body is the
output. -/
def classifyResponse (r : Response) : Outcome :=
  if r.status ≠ 200 then
    .failJson ("HTTP error " ++ toString r.status ++ " " ++ r.msg)
  else if containsSub r.body "Exception:" && containsSub r.body "at java.lang.Thread" then
    .failJson ("script failed with stacktrace:\n " ++ r.body)
  else
    .exitJson r.body

/-- The whole of `main` (source lines 128-172), with `fetch_url` abstracted
as a `transport` function.  The second component is the list of requests
submitted to the transport, in order, so the empty list means `fetch_url`
was never called. -/
def runMain (p : Params) (transport : Request → Response) : Outcome × List Request :=
  if p.user.isSome && p.password.isNone then
    (.failJson "password required when user provided", [])
  else
    match renderScript p with
    | .error e => (.templateFailure e, [])
    | .ok script_contents =>
      let req := buildRequest p script_contents
      (classifyResponse (transport req), [req])

/-- A transport that always answers with the same response. -/
def constTransport (r : Response) : Request → Response := fun _ => r

/-!  Specification-side view of a template, following the spec's wording:
a template is a sequence of tokens, each a literal character, a `$$`
escape, a bare `$name` placeholder or a braced placeholder; rendering
replaces each placeholder by the mapping value for its name (spliced in
verbatim, never rescanned) and each escape by a single dollar sign. -/

/-- One template token. -/
inductive Tok where
  | lit (c : Char)
  | esc
  | named (n : List Char)
  | braced (n : List Char)
deriving DecidableEq

/-- The concrete text of one token. -/
def Tok.flat : Tok → List Char
  | .lit c => [c]
  | .esc => ['$', '$']
  | .named n => '$' :: n
  | .braced n => '$' :: lbrace :: (n ++ [rbrace])

/-- The concrete text of a token sequence. -/
def flatten : List Tok → List Char
  | [] => []
  | t :: ts => t.flat ++ flatten ts

/-- A valid placeholder name: nonempty, ident-start first character, ident
characters afterwards. -/
def isIdentName (n : List Char) : Bool :=
  match n with
  | [] => false
  | c :: cs => isIdentStart c && cs.all isIdentChar

/-- True when the text of the token list does not begin with an identifier
character (so a preceding bare `$name` placeholder ends exactly there). -/
def headNotIdent : List Tok → Bool
  | [] => true
  | .lit c :: _ => !isIdentChar c
  | _ :: _ => true

/-- Well-formed token lists: literal characters are not dollar signs, names
are valid identifiers, and a bare placeholder is not followed by text that
starts with an identifier character. -/
def wfToks : List Tok → Bool
  | [] => true
  | .lit c :: ts => !(c = '$') && wfToks ts
  | .esc :: ts => wfToks ts
  | .named n :: ts => isIdentName n && headNotIdent ts && wfToks ts
  | .braced n :: ts => isIdentName n && wfToks ts

/-- The placeholder names of a token list, in order. -/
def tokNames : List Tok → List (List Char)
  | [] => []
  | .named n :: ts => n :: tokNames ts
  | .braced n :: ts => n :: tokNames ts
  | _ :: ts => tokNames ts

/-- Rendering as the spec words it: each placeholder becomes the mapping
value for its name, spliced in verbatim with no rescanning, each `$$`
escape becomes one `$`, and literal text is kept. -/
def renderToks (m : List (String × String)) : List Tok → List Char
  | [] => []
  | .lit c :: ts => c :: renderToks m ts
  | .esc :: ts => '$' :: renderToks m ts
  | .named n :: ts => ((List.lookup (String.mk n) m).getD "").data ++ renderToks m ts
  | .braced n :: ts => ((List.lookup (String.mk n) m).getD "").data ++ renderToks m ts

/-- True when the character list does not begin with an identifier
character. -/
def headNotIdentChar : List Char → Bool
  | [] => true
  | c :: _ => !isIdentChar c

theorem flatten_headNot (ts : List Tok) (h : headNotIdent ts = true) :
    headNotIdentChar (flatten ts) = true := by
  cases ts with
  | nil => rfl
  | cons t ts' =>
    cases t with
    | lit c => simpa [flatten, Tok.flat, headNotIdentChar, headNotIdent] using h
    | esc => simp [flatten, Tok.flat, headNotIdentChar]; decide
    | named n => simp [flatten, Tok.flat, headNotIdentChar]; decide
    | braced n => simp [flatten, Tok.flat, headNotIdentChar]; decide

theorem go_inName (m : List (String × String)) (ntail : List Char) :
    ∀ (acc rest : List Char), ntail.all isIdentChar = true →
      headNotIdentChar rest = true →
      substituteGo m (.inName acc) (ntail ++ rest) =
        finishName m (acc ++ ntail) (substituteGo m .plain rest) := by
  induction ntail with
  | nil =>
    intro acc rest _ hrest
    cases rest with
    | nil => simp [substituteGo]
    | cons c rs =>
      have hc : isIdentChar c = false := by
        simpa [headNotIdentChar] using hrest
      simp [substituteGo, hc]
  | cons d dt ih =>
    intro acc rest hall hrest
    have hd : isIdentChar d = true := by
      simp [List.all_cons] at hall
      exact hall.1
    have hdt : dt.all isIdentChar = true := by
      simp [List.all_cons] at hall
      exact List.all_eq_true.mpr hall.2
    have step : substituteGo m (.inName acc) ((d :: dt) ++ rest) =
        substituteGo m (.inName (acc ++ [d])) (dt ++ rest) := by
      simp [substituteGo, hd]
    rw [step, ih (acc ++ [d]) rest hdt hrest]
    simp

theorem go_inBraced (m : List (String × String)) (ntail : List Char) :
    ∀ (acc rest : List Char), ntail.all isIdentChar = true →
      substituteGo m (.inBraced acc) (ntail ++ rbrace :: rest) =
        finishName m (acc ++ ntail) (substituteGo m .plain rest) := by
  induction ntail with
  | nil =>
    intro acc rest _
    have h1 : isIdentChar rbrace = false := by decide
    simp [substituteGo, h1]
  | cons d dt ih =>
    intro acc rest hall
    have hd : isIdentChar d = true := by
      simp [List.all_cons] at hall
      exact hall.1
    have hdt : dt.all isIdentChar = true := by
      simp [List.all_cons] at hall
      exact List.all_eq_true.mpr hall.2
    have step : substituteGo m (.inBraced acc) ((d :: dt) ++ rbrace :: rest) =
        substituteGo m (.inBraced (acc ++ [d])) (dt ++ rbrace :: rest) := by
      simp [substituteGo, hd]
    rw [step, ih (acc ++ [d]) rest hdt]
    simp

theorem identStart_ne_dollar {c : Char} (h : isIdentStart c = true) : ¬ c = '$' := by
  intro he
  subst he
  exact absurd h (by decide)

theorem identStart_ne_lbrace {c : Char} (h : isIdentStart c = true) : ¬ c = lbrace := by
  intro he
  subst he
  exact absurd h (by decide)

theorem go_plain_named (m : List (String × String)) (c : Char) (nt : List Char)
    (ts : List Tok) (hstart : isIdentStart c = true) (hnt : nt.all isIdentChar = true)
    (hhead : headNotIdent ts = true) :
    substituteGo m .plain (flatten (.named (c :: nt) :: ts)) =
      finishName m (c :: nt) (substituteGo m .plain (flatten ts)) := by
  have hshape : flatten (.named (c :: nt) :: ts) = '$' :: c :: (nt ++ flatten ts) := by
    simp [flatten, Tok.flat]
  rw [hshape]
  have h1 : substituteGo m .plain ('$' :: c :: (nt ++ flatten ts)) =
      substituteGo m .afterDollar (c :: (nt ++ flatten ts)) := by
    simp [substituteGo]
  have h2 : substituteGo m .afterDollar (c :: (nt ++ flatten ts)) =
      substituteGo m (.inName [c]) (nt ++ flatten ts) := by
    simp [substituteGo, identStart_ne_dollar hstart, identStart_ne_lbrace hstart, hstart]
  rw [h1, h2, go_inName m nt [c] (flatten ts) hnt (flatten_headNot ts hhead)]
  simp

theorem go_plain_braced (m : List (String × String)) (c : Char) (nt : List Char)
    (ts : List Tok) (hstart : isIdentStart c = true) (hnt : nt.all isIdentChar = true) :
    substituteGo m .plain (flatten (.braced (c :: nt) :: ts)) =
      finishName m (c :: nt) (substituteGo m .plain (flatten ts)) := by
  have hshape : flatten (.braced (c :: nt) :: ts) =
      '$' :: lbrace :: c :: (nt ++ rbrace :: flatten ts) := by
    simp [flatten, Tok.flat]
  rw [hshape]
  have h1 : substituteGo m .plain ('$' :: lbrace :: c :: (nt ++ rbrace :: flatten ts)) =
      substituteGo m .afterDollar (lbrace :: c :: (nt ++ rbrace :: flatten ts)) := by
    simp [substituteGo]
  have hlb : ¬ lbrace = '$' := by decide
  have h2 : substituteGo m .afterDollar (lbrace :: c :: (nt ++ rbrace :: flatten ts)) =
      substituteGo m .bracedStart (c :: (nt ++ rbrace :: flatten ts)) := by
    simp [substituteGo, hlb]
  have h3 : substituteGo m .bracedStart (c :: (nt ++ rbrace :: flatten ts)) =
      substituteGo m (.inBraced [c]) (nt ++ rbrace :: flatten ts) := by
    simp [substituteGo, hstart]
  rw [h1, h2, h3, go_inBraced m nt [c] (flatten ts) hnt]
  simp

theorem go_plain_flatten (m : List (String × String)) :
    ∀ ts : List Tok, wfToks ts = true →
      (∀ n ∈ tokNames ts, (List.lookup (String.mk n) m).isSome = true) →
      substituteGo m .plain (flatten ts) = .ok (renderToks m ts) := by
  intro ts
  induction ts with
  | nil => intro _ _; rfl
  | cons t ts ih =>
    intro hwf hcov
    cases t with
    | lit c =>
      simp [wfToks] at hwf
      have hcov' : ∀ n ∈ tokNames ts, (List.lookup (String.mk n) m).isSome = true := by
        intro n hn
        exact hcov n (by simpa [tokNames] using hn)
      simp [flatten, Tok.flat, substituteGo, hwf.1, renderToks, ih hwf.2 hcov', consE]
    | esc =>
      simp [wfToks] at hwf
      have hcov' : ∀ n ∈ tokNames ts, (List.lookup (String.mk n) m).isSome = true := by
        intro n hn
        exact hcov n (by simpa [tokNames] using hn)
      simp [flatten, Tok.flat, substituteGo, renderToks, ih hwf hcov', consE]
    | named n =>
      simp [wfToks] at hwf
      obtain ⟨⟨hname, hhead⟩, hwf'⟩ := hwf
      cases n with
      | nil => exact absurd hname (by decide)
      | cons c nt =>
        simp [isIdentName] at hname
        have hcov' : ∀ n ∈ tokNames ts, (List.lookup (String.mk n) m).isSome = true := by
          intro n hn
          exact hcov n (by simp [tokNames, hn])
        have hsome : (List.lookup (String.mk (c :: nt)) m).isSome = true :=
          hcov (c :: nt) (by simp [tokNames])
        obtain ⟨v, hv⟩ := Option.isSome_iff_exists.mp hsome
        rw [go_plain_named m c nt ts hname.1 (List.all_eq_true.mpr hname.2) hhead,
          ih hwf' hcov']
        simp [finishName, hv, renderToks]
    | braced n =>
      simp [wfToks] at hwf
      obtain ⟨hname, hwf'⟩ := hwf
      cases n with
      | nil => exact absurd hname (by decide)
      | cons c nt =>
        simp [isIdentName] at hname
        have hcov' : ∀ n ∈ tokNames ts, (List.lookup (String.mk n) m).isSome = true := by
          intro n hn
          exact hcov n (by simp [tokNames, hn])
        have hsome : (List.lookup (String.mk (c :: nt)) m).isSome = true :=
          hcov (c :: nt) (by simp [tokNames])
        obtain ⟨v, hv⟩ := Option.isSome_iff_exists.mp hsome
        rw [go_plain_braced m c nt ts hname.1 (List.all_eq_true.mpr hname.2),
          ih hwf' hcov']
        simp [finishName, hv, renderToks]

theorem go_plain_missing (m : List (String × String)) :
    ∀ ts : List Tok, wfToks ts = true →
      (∃ n, n ∈ tokNames ts ∧ List.lookup (String.mk n) m = none) →
      ∃ e, substituteGo m .plain (flatten ts) = .error e := by
  intro ts
  induction ts with
  | nil =>
    intro _ hmiss
    obtain ⟨n, hn, _⟩ := hmiss
    exact absurd hn (by simp [tokNames])
  | cons t ts ih =>
    intro hwf hmiss
    cases t with
    | lit c =>
      simp [wfToks] at hwf
      obtain ⟨e, he⟩ := ih hwf.2 (by simpa [tokNames] using hmiss)
      exact ⟨e, by simp [flatten, Tok.flat, substituteGo, hwf.1, he, consE]⟩
    | esc =>
      simp [wfToks] at hwf
      obtain ⟨e, he⟩ := ih hwf (by simpa [tokNames] using hmiss)
      exact ⟨e, by simp [flatten, Tok.flat, substituteGo, he, consE]⟩
    | named n =>
      simp [wfToks] at hwf
      obtain ⟨⟨hname, hhead⟩, hwf'⟩ := hwf
      cases n with
      | nil => exact absurd hname (by decide)
      | cons c nt =>
        simp [isIdentName] at hname
        rw [go_plain_named m c nt ts hname.1 (List.all_eq_true.mpr hname.2) hhead]
        cases hl : List.lookup (String.mk (c :: nt)) m with
        | none => exact ⟨.keyError (String.mk (c :: nt)), by simp [finishName, hl]⟩
        | some v =>
          obtain ⟨n', hn', hnone⟩ := hmiss
          have hn'' : n' ∈ tokNames ts := by
            simp [tokNames] at hn'
            cases hn' with
            | inl h => rw [h] at hnone; rw [hnone] at hl; exact absurd hl (by simp)
            | inr h => exact h
          obtain ⟨e, he⟩ := ih hwf' ⟨n', hn'', hnone⟩
          exact ⟨e, by simp [finishName, hl, he]⟩
    | braced n =>
      simp [wfToks] at hwf
      obtain ⟨hname, hwf'⟩ := hwf
      cases n with
      | nil => exact absurd hname (by decide)
      | cons c nt =>
        simp [isIdentName] at hname
        rw [go_plain_braced m c nt ts hname.1 (List.all_eq_true.mpr hname.2)]
        cases hl : List.lookup (String.mk (c :: nt)) m with
        | none => exact ⟨.keyError (String.mk (c :: nt)), by simp [finishName, hl]⟩
        | some v =>
          obtain ⟨n', hn', hnone⟩ := hmiss
          have hn'' : n' ∈ tokNames ts := by
            simp [tokNames] at hn'
            cases hn' with
            | inl h => rw [h] at hnone; rw [hnone] at hl; exact absurd hl (by simp)
            | inr h => exact h
          obtain ⟨e, he⟩ := ih hwf' ⟨n', hn'', hnone⟩
          exact ⟨e, by simp [finishName, hl, he]⟩

theorem renderToks_congr (m m' : List (String × String)) :
    ∀ ts : List Tok,
      (∀ n ∈ tokNames ts, List.lookup (String.mk n) m' = List.lookup (String.mk n) m) →
      renderToks m' ts = renderToks m ts := by
  intro ts
  induction ts with
  | nil => intro _; rfl
  | cons t ts ih =>
    intro hagree
    cases t with
    | lit c => simp [renderToks, ih (by simpa [tokNames] using hagree)]
    | esc => simp [renderToks, ih (by simpa [tokNames] using hagree)]
    | named n =>
      have h1 : List.lookup (String.mk n) m' = List.lookup (String.mk n) m :=
        hagree n (by simp [tokNames])
      have h2 : ∀ k ∈ tokNames ts,
          List.lookup (String.mk k) m' = List.lookup (String.mk k) m := by
        intro k hk
        exact hagree k (by simp [tokNames, hk])
      simp [renderToks, h1, ih h2]
    | braced n =>
      have h1 : List.lookup (String.mk n) m' = List.lookup (String.mk n) m :=
        hagree n (by simp [tokNames])
      have h2 : ∀ k ∈ tokNames ts,
          List.lookup (String.mk k) m' = List.lookup (String.mk k) m := by
        intro k hk
        exact hagree k (by simp [tokNames, hk])
      simp [renderToks, h1, ih h2]

theorem classifyResponse_ne_config (r : Response) :
    ¬ classifyResponse r = .failJson "password required when user provided" := by
  unfold classifyResponse
  split
  · intro h
    injection h with hs
    have hd := congrArg String.data hs
    rw [show ("HTTP error " ++ toString r.status ++ " " ++ r.msg).data =
        "HTTP error ".data ++ ((toString r.status).data ++ (" ".data ++ r.msg.data)) by
      simp [String.data_append]] at hd
    injection hd with h1
    exact absurd h1 (by decide)
  · split
    · intro h
      injection h with hs
      have hd := congrArg String.data hs
      rw [show ("script failed with stacktrace:\n " ++ r.body).data =
          "script failed with stacktrace:\n ".data ++ r.body.data by
        simp [String.data_append]] at hd
      injection hd with h1
      exact absurd h1 (by decide)
    · intro h
      exact Outcome.noConfusion h

/-- Unfolding equation for `substitute` on an explicit character list. -/
theorem substitute_mk (l : List Char) (m : List (String × String)) :
    substitute (String.mk l) m =
      match substituteGo m .plain l with
      | .ok out => .ok (String.mk out)
      | .error e => .error e := rfl

theorem classifyResponse_status200 (r : Response) (hstatus : r.status = 200) :
    (classifyResponse r = .failJson ("script failed with stacktrace:\n " ++ r.body) ↔
      (containsSub r.body "Exception:" && containsSub r.body "at java.lang.Thread") = true) ∧
    ((containsSub r.body "Exception:" && containsSub r.body "at java.lang.Thread") = false →
      classifyResponse r = .exitJson r.body) := by
  unfold classifyResponse
  rw [hstatus]
  cases hb : containsSub r.body "Exception:" && containsSub r.body "at java.lang.Thread" with
  | false => simp [hb]
  | true => simp [hb]

theorem runMain_reaches_transport (p : Params) (t : Request → Response) (sc : String)
    (hval : (p.user.isSome && p.password.isNone) = false)
    (hrender : renderScript p = .ok sc) :
    runMain p t = (classifyResponse (t (buildRequest p sc)), [buildRequest p sc]) := by
  simp [runMain, hval, hrender]

/-!  Concrete fixtures used by the witnesses below. -/

/-- A parameter set with no credentials and no args. -/
def sampleOkParams : Params :=
  { script := "println(5)", url := "http://localhost:8080", validate_certs := true,
    user := none, password := none, args := none }

/-- A 200 response whose body carries the stack-trace fingerprint. -/
def stackResponse : Response :=
  { status := 200, msg := "OK", body := "Exception: boom at java.lang.Thread.run" }

/-- A 200 response with ordinary output. -/
def plainResponse : Response :=
  { status := 200, msg := "OK", body := "Result: true" }

/-- A 500 response whose body even carries the fingerprint. -/
def serverErrorResponse : Response :=
  { status := 500, msg := "Internal Server Error",
    body := "Exception: at java.lang.Thread" }

/-- User supplied, password missing. -/
def userOnlyParams : Params :=
  { script := "println(5)", url := "http://localhost:8080", validate_certs := true,
    user := some "admin", password := none, args := none }

/-- Both credentials supplied. -/
def authParams : Params :=
  { script := "println(5)", url := "http://jenkins.example", validate_certs := true,
    user := some "admin", password := some "secret", args := none }

/-- Password supplied without a user. -/
def pwOnlyParams : Params :=
  { script := "println(5)", url := "http://localhost:8080", validate_certs := true,
    user := none, password := some "secret", args := none }

/-- A script full of literal dollar signs, with args absent. -/
def dollarParams : Params :=
  { script := "price: $5 and $$", url := "http://localhost:8080", validate_certs := true,
    user := none, password := none, args := none }

/-- A template whose only placeholder has no key in the empty mapping. -/
def tsMiss : List Tok := [Tok.lit 'a', Tok.named ['x']]

/-- Parameters whose script is `tsMiss` and whose args mapping is empty. -/
def missParams : Params :=
  { script := String.mk (flatten tsMiss), url := "http://localhost:8080",
    validate_certs := true, user := none, password := none, args := some [] }

/-- An args mapping that is present but empty, with a bare `$` script. -/
def emptyArgsParams : Params :=
  { script := "$", url := "http://localhost:8080", validate_certs := true,
    user := none, password := none, args := some [] }

/-- User set, password unset, and a script whose rendering would fail. -/
def badBothParams : Params :=
  { script := "$", url := "http://localhost:8080", validate_certs := true,
    user := some "admin", password := none, args := some [] }

/-- A fully covered template: literal, braced and bare placeholders and an
escape; the value for `x` itself contains placeholder syntax. -/
def tsCov : List Tok := [Tok.lit 'a', Tok.braced ['x'], Tok.named ['y'], Tok.esc]

/-- Mapping covering `tsCov`, with a value containing placeholder syntax. -/
def mCov : List (String × String) := [("x", "$y"), ("y", "B")]

/-- A one-placeholder template for the unused-key claim. -/
def tsOne : List Tok := [Tok.named ['x']]

/-- Mapping with an unused key. -/
def mWide : List (String × String) := [("x", "1"), ("unused", "9")]

/-- The same mapping with the unused key removed. -/
def mNarrow : List (String × String) := [("x", "1")]

/-- C1: on an HTTP 200 response the outcome is the stack-trace failure
message (the fixed prefix followed by the full body) exactly when the body
contains both "Exception:" and "at java.lang.Thread"; otherwise the outcome
is success with the body as the output, verbatim. -/
theorem jenkins_status200_outcome (p : Params) (t : Request → Response) (sc : String)
    (hval : (p.user.isSome && p.password.isNone) = false)
    (hrender : renderScript p = .ok sc)
    (hstatus : (t (buildRequest p sc)).status = 200) :
    ((runMain p t).1 =
        .failJson ("script failed with stacktrace:\n " ++ (t (buildRequest p sc)).body) ↔
      (containsSub (t (buildRequest p sc)).body "Exception:" &&
        containsSub (t (buildRequest p sc)).body "at java.lang.Thread") = true) ∧
    ((containsSub (t (buildRequest p sc)).body "Exception:" &&
        containsSub (t (buildRequest p sc)).body "at java.lang.Thread") = false →
      (runMain p t).1 = .exitJson (t (buildRequest p sc)).body) := by
  rw [show (runMain p t).1 = classifyResponse (t (buildRequest p sc)) by
    rw [runMain_reaches_transport p t sc hval hrender]]
  exact classifyResponse_status200 _ hstatus

theorem jenkins_status200_outcome_witness :
    ((sampleOkParams.user.isSome && sampleOkParams.password.isNone) = false) ∧
    (renderScript sampleOkParams = .ok "println(5)") ∧
    ((constTransport stackResponse (buildRequest sampleOkParams "println(5)")).status = 200) ∧
    (((runMain sampleOkParams (constTransport stackResponse)).1 =
        .failJson ("script failed with stacktrace:\n " ++
          (constTransport stackResponse (buildRequest sampleOkParams "println(5)")).body) ↔
      (containsSub (constTransport stackResponse (buildRequest sampleOkParams "println(5)")).body "Exception:" &&
        containsSub (constTransport stackResponse (buildRequest sampleOkParams "println(5)")).body "at java.lang.Thread") = true) ∧
    ((containsSub (constTransport stackResponse (buildRequest sampleOkParams "println(5)")).body "Exception:" &&
        containsSub (constTransport stackResponse (buildRequest sampleOkParams "println(5)")).body "at java.lang.Thread") = false →
      (runMain sampleOkParams (constTransport stackResponse)).1 =
        .exitJson (constTransport stackResponse (buildRequest sampleOkParams "println(5)")).body)) :=
  ⟨by decide, rfl, rfl,
    jenkins_status200_outcome sampleOkParams (constTransport stackResponse) "println(5)"
      (by decide) rfl rfl⟩

/-- C2: when the user parameter is set and the password parameter is unset,
`main` fails with "password required when user provided" and the transport
is never invoked. -/
theorem jenkins_missing_password_config_error (p : Params) (t : Request → Response)
    (h1 : p.user.isSome = true) (h2 : p.password = none) :
    runMain p t = (.failJson "password required when user provided", []) := by
  simp [runMain, h1, h2]

theorem jenkins_missing_password_config_error_witness :
    (userOnlyParams.user.isSome = true) ∧ (userOnlyParams.password = none) ∧
    runMain userOnlyParams (constTransport plainResponse) =
      (.failJson "password required when user provided", []) :=
  ⟨rfl, rfl,
    jenkins_missing_password_config_error userOnlyParams (constTransport plainResponse) rfl rfl⟩

/-- C3: on a response with status other than 200 the outcome is the HTTP
error message built from the status code and the transport status text,
whatever the body contains. -/
theorem jenkins_non200_http_error (p : Params) (t : Request → Response) (sc : String)
    (hval : (p.user.isSome && p.password.isNone) = false)
    (hrender : renderScript p = .ok sc)
    (hstatus : ¬ (t (buildRequest p sc)).status = 200) :
    (runMain p t).1 =
      .failJson ("HTTP error " ++ toString (t (buildRequest p sc)).status ++ " " ++
        (t (buildRequest p sc)).msg) := by
  rw [show (runMain p t).1 = classifyResponse (t (buildRequest p sc)) by
    rw [runMain_reaches_transport p t sc hval hrender]]
  unfold classifyResponse
  rw [if_pos hstatus]

theorem jenkins_non200_http_error_witness :
    ((sampleOkParams.user.isSome && sampleOkParams.password.isNone) = false) ∧
    (renderScript sampleOkParams = .ok "println(5)") ∧
    (¬ (constTransport serverErrorResponse (buildRequest sampleOkParams "println(5)")).status = 200) ∧
    (runMain sampleOkParams (constTransport serverErrorResponse)).1 =
      .failJson ("HTTP error " ++
        toString (constTransport serverErrorResponse (buildRequest sampleOkParams "println(5)")).status ++
        " " ++ (constTransport serverErrorResponse (buildRequest sampleOkParams "println(5)")).msg) :=
  ⟨by decide, rfl, by decide,
    jenkins_non200_http_error sampleOkParams (constTransport serverErrorResponse) "println(5)"
      (by decide) rfl (by decide)⟩

/-- C4: for a well-formed template all of whose placeholder names are
covered by the mapping, `Template.substitute` succeeds and yields exactly
the spec-side rendering `renderToks`: every braced or bare placeholder is
replaced by the mapping value for its name, every `$$` escape becomes one
`$`, and values are spliced in verbatim in a single pass, never rescanned
for further placeholders. -/
theorem jenkins_render_covered (m : List (String × String)) (ts : List Tok)
    (hwf : wfToks ts = true)
    (hcov : ∀ n ∈ tokNames ts, (List.lookup (String.mk n) m).isSome = true) :
    substitute (String.mk (flatten ts)) m = .ok (String.mk (renderToks m ts)) := by
  rw [substitute_mk, go_plain_flatten m ts hwf hcov]

theorem jenkins_render_covered_witness :
    (wfToks tsCov = true) ∧
    (∀ n ∈ tokNames tsCov, (List.lookup (String.mk n) mCov).isSome = true) ∧
    substitute (String.mk (flatten tsCov)) mCov = .ok (String.mk (renderToks mCov tsCov)) :=
  ⟨by decide, by decide, jenkins_render_covered mCov tsCov (by decide) (by decide)⟩

/-- C5: when args is supplied and some placeholder name of a well-formed
template has no key in the mapping, `main` ends in a template failure (the
uncaught substitute exception); the placeholder is never dropped or kept in
a successful result, and the transport is never invoked. -/
theorem jenkins_missing_key_no_transport (p : Params) (t : Request → Response)
    (m : List (String × String)) (ts : List Tok)
    (hargs : p.args = some m) (hscript : p.script = String.mk (flatten ts))
    (hwf : wfToks ts = true)
    (hmiss : ∃ n, n ∈ tokNames ts ∧ List.lookup (String.mk n) m = none)
    (hval : (p.user.isSome && p.password.isNone) = false) :
    ∃ e, runMain p t = (.templateFailure e, []) := by
  obtain ⟨e, he⟩ := go_plain_missing m ts hwf hmiss
  refine ⟨e, ?_⟩
  have hrender : renderScript p = .error e := by
    rw [renderScript, hargs, hscript]
    show substitute (String.mk (flatten ts)) m = Except.error e
    rw [substitute_mk, he]
  simp [runMain, hval, hrender]

theorem jenkins_missing_key_no_transport_witness :
    (missParams.args = some []) ∧
    (missParams.script = String.mk (flatten tsMiss)) ∧
    (wfToks tsMiss = true) ∧
    (∃ n, n ∈ tokNames tsMiss ∧ List.lookup (String.mk n) ([] : List (String × String)) = none) ∧
    ((missParams.user.isSome && missParams.password.isNone) = false) ∧
    ∃ e, runMain missParams (constTransport plainResponse) = (.templateFailure e, []) :=
  ⟨rfl, rfl, by decide, ⟨['x'], by decide, rfl⟩, by decide,
    jenkins_missing_key_no_transport missParams (constTransport plainResponse) [] tsMiss
      rfl rfl (by decide) ⟨['x'], by decide, rfl⟩ (by decide)⟩

/-- C6 counterexample: the claim also covers a present-but-empty mapping,
but with `args = some []` the script is still scanned: on the script "$"
rendering raises the invalid-placeholder error instead of returning the
template unmodified. -/
theorem jenkins_empty_args_cex :
    renderScript emptyArgsParams = .error .invalidPlaceholder ∧
      ¬ renderScript emptyArgsParams = .ok emptyArgsParams.script :=
  ⟨rfl, fun h => Except.noConfusion
    (show Except.error TemplateError.invalidPlaceholder = Except.ok emptyArgsParams.script from h)⟩

/-- C6 (amended): when the args mapping is absent the script is passed
through with no placeholder scanning at all, so literal `$` characters and
malformed placeholder syntax survive verbatim without error. -/
theorem jenkins_absent_args_verbatim (p : Params) (h : p.args = none) :
    renderScript p = .ok p.script := by
  simp [renderScript, h]

theorem jenkins_absent_args_verbatim_witness :
    (dollarParams.args = none) ∧ renderScript dollarParams = .ok dollarParams.script :=
  ⟨rfl, jenkins_absent_args_verbatim dollarParams rfl⟩

/-- C7: every invocation that reaches the transport submits exactly one
request, an HTTP POST to the base url with "/scriptText" appended, whose
body is the url-form-encoded `script` field carrying the rendered script,
and which carries the supplied username and password as basic-auth request
parameters (not in the url) whenever both are present. -/
theorem jenkins_request_construction (p : Params) (t : Request → Response) (sc : String)
    (hval : (p.user.isSome && p.password.isNone) = false)
    (hrender : renderScript p = .ok sc) :
    (runMain p t).2 = [buildRequest p sc] ∧
    (buildRequest p sc).method = "POST" ∧
    (buildRequest p sc).url = p.url ++ "/scriptText" ∧
    (buildRequest p sc).data = urlencode [("script", sc)] ∧
    (∀ u pw, p.user = some u → p.password = some pw →
      (buildRequest p sc).url_username = some u ∧
      (buildRequest p sc).url_password = some pw ∧
      (buildRequest p sc).force_basic_auth = true) := by
  refine ⟨?_, rfl, rfl, rfl, ?_⟩
  · rw [runMain_reaches_transport p t sc hval hrender]
  · intro u pw hu hpw
    refine ⟨?_, ?_, ?_⟩ <;> simp [buildRequest, hu, hpw]

theorem jenkins_request_construction_witness :
    ((authParams.user.isSome && authParams.password.isNone) = false) ∧
    (renderScript authParams = .ok "println(5)") ∧
    ((runMain authParams (constTransport plainResponse)).2 =
        [buildRequest authParams "println(5)"] ∧
      (buildRequest authParams "println(5)").method = "POST" ∧
      (buildRequest authParams "println(5)").url = authParams.url ++ "/scriptText" ∧
      (buildRequest authParams "println(5)").data = urlencode [("script", "println(5)")] ∧
      (∀ u pw, authParams.user = some u → authParams.password = some pw →
        (buildRequest authParams "println(5)").url_username = some u ∧
        (buildRequest authParams "println(5)").url_password = some pw ∧
        (buildRequest authParams "println(5)").force_basic_auth = true)) :=
  ⟨by decide, rfl,
    jenkins_request_construction authParams (constTransport plainResponse) "println(5)"
      (by decide) rfl⟩

/-- C8: a password without a user raises no configuration error and is
silently ignored: the run reaches the transport with a single request that
carries no basic-auth username, no basic-auth password and no forced basic
auth. -/
theorem jenkins_password_without_user (p : Params) (t : Request → Response)
    (sc pw : String) (hu : p.user = none) (_hpw : p.password = some pw)
    (hrender : renderScript p = .ok sc) :
    (runMain p t).2 = [buildRequest p sc] ∧
    (buildRequest p sc).url_username = none ∧
    (buildRequest p sc).url_password = none ∧
    (buildRequest p sc).force_basic_auth = false ∧
    ¬ (runMain p t).1 = .failJson "password required when user provided" := by
  have hval : (p.user.isSome && p.password.isNone) = false := by simp [hu]
  refine ⟨?_, ?_, ?_, ?_, ?_⟩
  · rw [runMain_reaches_transport p t sc hval hrender]
  · simp [buildRequest, hu]
  · simp [buildRequest, hu]
  · simp [buildRequest, hu]
  · rw [show (runMain p t).1 = classifyResponse (t (buildRequest p sc)) by
      rw [runMain_reaches_transport p t sc hval hrender]]
    exact classifyResponse_ne_config _

theorem jenkins_password_without_user_witness :
    (pwOnlyParams.user = none) ∧ (pwOnlyParams.password = some "secret") ∧
    (renderScript pwOnlyParams = .ok "println(5)") ∧
    ((runMain pwOnlyParams (constTransport plainResponse)).2 =
        [buildRequest pwOnlyParams "println(5)"] ∧
      (buildRequest pwOnlyParams "println(5)").url_username = none ∧
      (buildRequest pwOnlyParams "println(5)").url_password = none ∧
      (buildRequest pwOnlyParams "println(5)").force_basic_auth = false ∧
      ¬ (runMain pwOnlyParams (constTransport plainResponse)).1 =
        .failJson "password required when user provided") :=
  ⟨rfl, rfl, rfl,
    jenkins_password_without_user pwOnlyParams (constTransport plainResponse)
      "println(5)" "secret" rfl rfl rfl⟩

/-- C9: mapping keys that name no placeholder of the template are ignored:
with all placeholders covered, rendering succeeds and its result is the
same under any mapping that agrees on the placeholder names, so adding or
removing unused keys cannot change it. -/
theorem jenkins_unused_keys_ignored (m mWider : List (String × String)) (ts : List Tok)
    (hwf : wfToks ts = true)
    (hagree : ∀ n ∈ tokNames ts,
      List.lookup (String.mk n) mWider = List.lookup (String.mk n) m)
    (hcov : ∀ n ∈ tokNames ts, (List.lookup (String.mk n) m).isSome = true) :
    substitute (String.mk (flatten ts)) mWider = substitute (String.mk (flatten ts)) m ∧
    ∃ out, substitute (String.mk (flatten ts)) m = .ok out := by
  have hcov' : ∀ n ∈ tokNames ts, (List.lookup (String.mk n) mWider).isSome = true := by
    intro n hn
    rw [hagree n hn]
    exact hcov n hn
  have h1 := go_plain_flatten m ts hwf hcov
  have h2 := go_plain_flatten mWider ts hwf hcov'
  constructor
  · rw [substitute_mk, substitute_mk, h1, h2, renderToks_congr m mWider ts hagree]
  · exact ⟨String.mk (renderToks m ts), by rw [substitute_mk, h1]⟩

theorem jenkins_unused_keys_ignored_witness :
    (wfToks tsOne = true) ∧
    (∀ n ∈ tokNames tsOne,
      List.lookup (String.mk n) mWide = List.lookup (String.mk n) mNarrow) ∧
    (∀ n ∈ tokNames tsOne, (List.lookup (String.mk n) mNarrow).isSome = true) ∧
    (substitute (String.mk (flatten tsOne)) mWide =
        substitute (String.mk (flatten tsOne)) mNarrow ∧
      ∃ out, substitute (String.mk (flatten tsOne)) mNarrow = .ok out) :=
  ⟨by decide, by decide, by decide,
    jenkins_unused_keys_ignored mNarrow mWide tsOne (by decide) (by decide) (by decide)⟩

/-- C10: credential validation comes before rendering: with a user set, no
password, and a script whose rendering would fail, the run still ends in
the configuration error with no substitution attempted and no transport
call. -/
theorem jenkins_validation_before_rendering (p : Params) (t : Request → Response)
    (h1 : p.user.isSome = true) (h2 : p.password = none)
    (_h3 : ∃ e, renderScript p = .error e) :
    runMain p t = (.failJson "password required when user provided", []) := by
  simp [runMain, h1, h2]

theorem jenkins_validation_before_rendering_witness :
    (badBothParams.user.isSome = true) ∧ (badBothParams.password = none) ∧
    (∃ e, renderScript badBothParams = .error e) ∧
    runMain badBothParams (constTransport plainResponse) =
      (.failJson "password required when user provided", []) :=
  ⟨rfl, rfl, ⟨.invalidPlaceholder, rfl⟩,
    jenkins_validation_before_rendering badBothParams (constTransport plainResponse)
      rfl rfl ⟨.invalidPlaceholder, rfl⟩⟩
